import Mathlib

/-! Verification development for the ergonomic risk pipeline of the
Reality-Lens vision service.  The shallow embedding below follows
`src/vision-service/src/services/risk_scoring.py` (biomechanical scorer) and
`src/vision-service/src/ml/pose_pipeline.py` (keypoint decoder, ergonomic
feature extractor, pipeline orchestrator).  Python floats are modelled by a
linear ordered field with a floor structure; the scorer is stated generically
and instantiated at `ℚ` for concrete evaluation and at `ℝ` where it consumes
the (transcendental-valued) extractor output.  Python dictionaries are
modelled as insertion-ordered association lists, with `dict.get` returning
`none` both for a missing key and for a key stored with value `None`. -/

/-- Division-safe thresholds triple, mirroring a `{low, medium, high}` entry of
the `ergonomic_thresholds` configuration table. -/
structure Thresholds (α : Type) where
  low : α
  medium : α
  high : α

/-- Configuration owned by `BiomechanicalScorer`: per-feature threshold table,
REBA joint weights, and the ordered risk-band table. -/
structure ScorerConfig (α : Type) where
  thresholds : List (String × Thresholds α)
  weights : List (String × α)
  risk_levels : List (String × ℤ × ℤ)

/-- Python `features.get(key)` on a dictionary whose stored values are already
optional: returns `none` for a missing key or a key holding `None`. -/
def dget {α : Type} : List (String × Option α) → String → Option α
  | [], _ => none
  | (k, v) :: rest, key => if k = key then v else dget rest key

/-- Python `table.get(key, default)` for a dictionary with mandatory values. -/
def lookupD {β : Type} : List (String × β) → String → β → β
  | [], _, _d => _d
  | (k, v) :: rest, key, _d => if k = key then v else lookupD rest key _d

/-- Embedding of `BiomechanicalScorer._score_angle`: banding of an (optional) angle against
three thresholds; a missing angle scores 0 ("not assessed"). -/
def score_angle {α : Type} [LinearOrderedField α]
    (angle : Option α) (thresholds : Thresholds α) : ℕ :=
  match angle with
  | none => 0
  | some a =>
    if a < thresholds.low then 1
    else if a < thresholds.medium then 2
    else if a < thresholds.high then 3
    else 4

/-- Python `int(...)` applied to a float: truncation toward zero. -/
def pyInt {α : Type} [LinearOrderedField α] [FloorRing α] (x : α) : ℤ :=
  if 0 ≤ x then ⌊x⌋ else ⌈x⌉

/-- Round to the nearest integer, ties to the even neighbour (the rounding
used by Python's built-in `round`). -/
def roundHalfEven {α : Type} [LinearOrderedField α] [FloorRing α] (x : α) : ℤ :=
  if Int.fract x < 1 / 2 then ⌊x⌋
  else if 1 / 2 < Int.fract x then ⌊x⌋ + 1
  else if ⌊x⌋ % 2 = 0 then ⌊x⌋ else ⌊x⌋ + 1

/-- Python `round(x, 2)`: round to two decimal places, ties to even. -/
def round2 {α : Type} [LinearOrderedField α] [FloorRing α] (x : α) : α :=
  ((roundHalfEven (x * 100) : ℤ) : α) / 100

/-- Embedding of `BiomechanicalScorer._calculate_confidence`: fraction of feature fields
that hold a value; 0 for an empty feature mapping. -/
def calculate_confidence {α : Type} [LinearOrderedField α]
    (ergonomic_features : List (String × Option α)) : α :=
  if ergonomic_features.length = 0 then 0
  else ((ergonomic_features.filter fun p => p.2.isSome).length : α) /
    (ergonomic_features.length : α)

/-- Side-averaging performed inline in `calculate_reba_score`: average of both
sides when both are observed, else whichever single side is observed. -/
def pairAverage {α : Type} [LinearOrderedField α] (l r : Option α) : Option α :=
  match l, r with
  | some a, some b => some ((a + b) / 2)
  | some a, none => some a
  | none, some b => some b
  | none, none => none

/-- Result dictionary of `BiomechanicalScorer.calculate_reba_score`. -/
structure RebaResult (α : Type) where
  score : ℤ
  neck_score : ℕ
  trunk_score : ℕ
  upper_arm_score : ℕ
  lower_arm_score : ℕ
  confidence : α

/-- Embedding of `BiomechanicalScorer.calculate_reba_score`. -/
def calculate_reba_score {α : Type} [LinearOrderedField α] [FloorRing α]
    (cfg : ScorerConfig α) (ergonomic_features : List (String × Option α)) : RebaResult α :=
  let neck_score := score_angle (dget ergonomic_features "neck_flexion")
    (lookupD cfg.thresholds "neck_flexion" ⟨20, 45, 60⟩)
  let trunk_score := score_angle (dget ergonomic_features "trunk_flexion")
    (lookupD cfg.thresholds "trunk_flexion" ⟨20, 45, 60⟩)
  let avg_shoulder := pairAverage (dget ergonomic_features "left_shoulder_abduction")
    (dget ergonomic_features "right_shoulder_abduction")
  let upper_arm_score := score_angle avg_shoulder
    (lookupD cfg.thresholds "shoulder_abduction" ⟨45, 90, 135⟩)
  let avg_elbow := pairAverage (dget ergonomic_features "left_elbow_flexion")
    (dget ergonomic_features "right_elbow_flexion")
  let lower_arm_score := score_angle avg_elbow
    (lookupD cfg.thresholds "elbow_flexion" ⟨60, 100, 140⟩)
  let weighted_score : α :=
    (neck_score : α) * lookupD cfg.weights "neck" 0.20 +
    (trunk_score : α) * lookupD cfg.weights "trunk" 0.25 +
    (upper_arm_score : α) * lookupD cfg.weights "upper_arm" 0.20 +
    (lower_arm_score : α) * lookupD cfg.weights "lower_arm" 0.15
  ⟨min (pyInt (weighted_score * 25)) 100, neck_score, trunk_score, upper_arm_score,
    lower_arm_score, calculate_confidence ergonomic_features⟩

/-- Result dictionary of `BiomechanicalScorer.calculate_rula_score`. -/
structure RulaResult (α : Type) where
  score : ℤ
  group_a_score : ℕ
  group_b_score : ℕ
  confidence : α

/-- Embedding of `BiomechanicalScorer.calculate_rula_score` (left-side arm ordinals only). -/
def calculate_rula_score {α : Type} [LinearOrderedField α] [FloorRing α]
    (cfg : ScorerConfig α) (ergonomic_features : List (String × Option α)) : RulaResult α :=
  let upper_arm_score := score_angle (dget ergonomic_features "left_shoulder_abduction")
    (lookupD cfg.thresholds "shoulder_abduction" ⟨45, 90, 135⟩)
  let lower_arm_score := score_angle (dget ergonomic_features "left_elbow_flexion")
    (lookupD cfg.thresholds "elbow_flexion" ⟨60, 100, 140⟩)
  let neck_score := score_angle (dget ergonomic_features "neck_flexion")
    (lookupD cfg.thresholds "neck_flexion" ⟨20, 45, 60⟩)
  let trunk_score := score_angle (dget ergonomic_features "trunk_flexion")
    (lookupD cfg.thresholds "trunk_flexion" ⟨20, 45, 60⟩)
  let group_a := upper_arm_score + lower_arm_score
  let group_b := neck_score + trunk_score
  ⟨min (pyInt (((group_a + group_b : ℕ) : α) * 12.5)) 100, group_a, group_b,
    calculate_confidence ergonomic_features⟩

/-- Embedding of `BiomechanicalScorer.get_risk_level`: first configured band (in declared
order) whose inclusive range contains the score; `"unknown"` if none. -/
def get_risk_level : List (String × ℤ × ℤ) → ℤ → String
  | [], _ => "unknown"
  | (level, b) :: rest, score =>
    if b.1 ≤ score ∧ score ≤ b.2 then level else get_risk_level rest score

/-- Embedding of `BiomechanicalScorer.get_traffic_light`: hard-coded 40/60 cutoffs. -/
def get_traffic_light (score : ℤ) : String :=
  if score ≤ 40 then "green" else if score ≤ 60 then "yellow" else "red"

/-- Result dictionary of `compute_risk`; keys that a given branch does not
emit are modelled as `none`. -/
structure RiskAssessment (α : Type) where
  rula : Option ℤ
  reba : Option ℤ
  niosh : Option ℤ
  composite : Option ℤ
  confidence : Option α
  traffic_light : Option String
  risk_level : Option String
  details : Option (RebaResult α × RulaResult α)
  error : Option String

/-- The all-null dictionary returned by `compute_risk` for an empty feature
mapping. -/
def nullAssessment {α : Type} : RiskAssessment α :=
  ⟨none, none, none, none, none, none, none, none, none⟩

/-- Body of the `try` branch of `compute_risk`: score both models, combine. -/
def riskSuccess {α : Type} [LinearOrderedField α] [FloorRing α]
    (cfg : ScorerConfig α) (ergonomic_features : List (String × Option α)) : RiskAssessment α :=
  let reba_result := calculate_reba_score cfg ergonomic_features
  let rula_result := calculate_rula_score cfg ergonomic_features
  let composite_score := pyInt (((reba_result.score + rula_result.score : ℤ) : α) / 2)
  let composite_confidence := (reba_result.confidence + rula_result.confidence) / 2
  ⟨some rula_result.score, some reba_result.score, none, some composite_score,
    some (round2 composite_confidence), some (get_traffic_light composite_score),
    some (get_risk_level cfg.risk_levels composite_score),
    some (reba_result, rula_result), none⟩

/-- Embedding of `compute_risk` from `risk_scoring.py`, applied to the extracted
`ergonomic_features` mapping.  Python's `if not ergonomic_features:` guard is
the emptiness test on the mapping; the scoring computations of the `try`
branch are total in this model, so the `except` branch is unreachable. -/
def compute_risk {α : Type} [LinearOrderedField α] [FloorRing α]
    (cfg : ScorerConfig α) (ergonomic_features : List (String × Option α)) : RiskAssessment α :=
  if ergonomic_features = [] then nullAssessment else riskSuccess cfg ergonomic_features

/-- Embedding of `BiomechanicalScorer._get_default_config`, the configuration in force when
no YAML configuration file is found. -/
def defaultConfig : ScorerConfig ℚ :=
  ⟨[("neck_flexion", ⟨20, 45, 60⟩), ("trunk_flexion", ⟨20, 45, 60⟩),
    ("shoulder_abduction", ⟨45, 90, 135⟩)],
   [("neck", 0.20), ("trunk", 0.25), ("upper_arm", 0.20), ("lower_arm", 0.15)],
   [("negligible", 0, 20), ("low", 21, 40), ("medium", 41, 60), ("high", 61, 80),
    ("very_high", 81, 100)]⟩

/-- Keypoint dictionary produced by `PosePipeline.extract_keypoints`. -/
structure Keypoint where
  id : ℕ
  name : String
  x : ℚ
  y : ℚ
  confidence : ℚ
deriving DecidableEq

/-- Raw inference output.  A rank-3 tensor shaped `[1, K, 3]` is carried as
its `ndim` together with the K per-keypoint `(y, x, confidence)` rows of the
single batch element; for any other rank only `ndim` is consulted. -/
structure RawTensor where
  ndim : ℕ
  rows : List (ℚ × ℚ × ℚ)

/-- Name selection in the decoder: the supplied name at that index, or the
synthesized `keypoint_<id>` when the name list is too short. -/
def nameFor (keypoint_names : List String) (idx : ℕ) : String :=
  match keypoint_names.get? idx with
  | some n => n
  | none => "keypoint_" ++ toString idx

/-- The decoding loop of `PosePipeline.extract_keypoints`, iterating over the
rows of batch element 0 with their tensor indices. -/
def decodeFrom (confidence_threshold : ℚ) (keypoint_names : List String) :
    ℕ → List (ℚ × ℚ × ℚ) → List Keypoint
  | _, [] => []
  | idx, (y, x, confidence) :: rest =>
    if confidence ≥ confidence_threshold then
      ⟨idx, nameFor keypoint_names idx, x, y, confidence⟩ ::
        decodeFrom confidence_threshold keypoint_names (idx + 1) rest
    else decodeFrom confidence_threshold keypoint_names (idx + 1) rest

/-- Embedding of `PosePipeline.extract_keypoints`: decode only when the tensor has rank 3,
otherwise degrade to the empty keypoint list. -/
def extract_keypoints (confidence_threshold : ℚ) (keypoint_names : List String)
    (model_output : RawTensor) : List Keypoint :=
  if model_output.ndim = 3 then
    decodeFrom confidence_threshold keypoint_names 0 model_output.rows
  else []

/-- Written from the spec's words (section 4.1): the output contains exactly
the keypoints whose confidence clears the threshold, keeping tensor order,
with `id` the tensor index and `name` supplied or synthesized. -/
def decode_spec (confidence_threshold : ℚ) (keypoint_names : List String)
    (model_output : RawTensor) : List Keypoint :=
  if model_output.ndim = 3 then
    (model_output.rows.enum.filter fun p => p.2.2.2 ≥ confidence_threshold).map
      fun p => ⟨p.1, nameFor keypoint_names p.1, p.2.2.1, p.2.1, p.2.2.2⟩
  else []

/-- Embedding of `PosePipeline.get_keypoint_by_name`: first keypoint with the given name. -/
def get_keypoint_by_name : List Keypoint → String → Option Keypoint
  | [], _ => none
  | kp :: rest, name => if kp.name = name then some kp else get_keypoint_by_name rest name

/-- Embedding of `numpy.arctan2 y x`, the angle of the point `(x, y)` in `(-π, π]`. -/
noncomputable def arctan2 (y x : ℝ) : ℝ := Complex.arg ⟨x, y⟩

/-- Embedding of `numpy.degrees`: radians to degrees. -/
noncomputable def np_degrees (radians : ℝ) : ℝ := radians * 180 / Real.pi

/-- Embedding of `numpy.clip v lo hi`. -/
noncomputable def np_clip (v lo hi : ℝ) : ℝ := min (max v lo) hi

/-- Denominator of the cosine in `PosePipeline.calculate_angle`: product of
the two vector norms plus the `1e-6` division guard. -/
noncomputable def angleDenom (v1x v1y v2x v2y : ℝ) : ℝ :=
  Real.sqrt (v1x ^ 2 + v1y ^ 2) * Real.sqrt (v2x ^ 2 + v2y ^ 2) + 1e-6

/-- Embedding of `PosePipeline.calculate_angle`: vertex angle at `p2` between the vectors
to `p1` and `p3`, with the `+1e-6` denominator guard and the cosine clipped to
`[-1, 1]` before `arccos`; result in degrees. -/
noncomputable def calculate_angle (p1 p2 p3 : ℚ × ℚ) : ℝ :=
  let v1x : ℝ := (p1.1 : ℝ) - (p2.1 : ℝ)
  let v1y : ℝ := (p1.2 : ℝ) - (p2.2 : ℝ)
  let v2x : ℝ := (p3.1 : ℝ) - (p2.1 : ℝ)
  let v2y : ℝ := (p3.2 : ℝ) - (p2.2 : ℝ)
  let cos_angle : ℝ := (v1x * v2x + v1y * v2y) / angleDenom v1x v1y v2x v2y
  np_degrees (Real.arccos (np_clip cos_angle (-1) 1))

/-- The `neck_flexion` field: requires nose and both shoulders; horizontal
tilt of the nose from the shoulder midpoint. -/
noncomputable def neckField (nose left_shoulder right_shoulder : Option Keypoint) : Option ℝ :=
  match nose, left_shoulder, right_shoulder with
  | some n, some ls, some rs =>
    let mid_shoulder_x : ℚ := (ls.x + rs.x) / 2
    let mid_shoulder_y : ℚ := (ls.y + rs.y) / 2
    some (np_degrees |arctan2 ((n.y : ℝ) - (mid_shoulder_y : ℝ)) ((n.x : ℝ) - (mid_shoulder_x : ℝ))|)
  | _, _, _ => none

/-- The `trunk_flexion` field: requires both shoulders and both hips; angle of
the shoulder-midpoint-to-hip-midpoint axis away from vertical. -/
noncomputable def trunkField (left_shoulder left_hip right_shoulder right_hip : Option Keypoint) :
    Option ℝ :=
  match left_shoulder, left_hip, right_shoulder, right_hip with
  | some ls, some lh, some rs, some rh =>
    let mid_shoulder_x : ℚ := (ls.x + rs.x) / 2
    let mid_shoulder_y : ℚ := (ls.y + rs.y) / 2
    let mid_hip_x : ℚ := (lh.x + rh.x) / 2
    let mid_hip_y : ℚ := (lh.y + rh.y) / 2
    some (np_degrees |arctan2 ((mid_shoulder_y : ℝ) - (mid_hip_y : ℝ))
      ((mid_shoulder_x : ℝ) - (mid_hip_x : ℝ)) - Real.pi / 2|)
  | _, _, _, _ => none

/-- A `*_shoulder_abduction` field: requires shoulder, elbow and hip of the
same side; vertex angle at the shoulder between hip and elbow. -/
noncomputable def shoulderAbductionField (shoulder elbow hip : Option Keypoint) : Option ℝ :=
  match shoulder, elbow, hip with
  | some s, some e, some h => some (calculate_angle (h.x, h.y) (s.x, s.y) (e.x, e.y))
  | _, _, _ => none

/-- An `*_elbow_flexion` field: requires shoulder, elbow and wrist of the same
side; vertex angle at the elbow between shoulder and wrist. -/
noncomputable def elbowFlexionField (shoulder elbow wrist : Option Keypoint) : Option ℝ :=
  match shoulder, elbow, wrist with
  | some s, some e, some w => some (calculate_angle (s.x, s.y) (e.x, e.y) (w.x, w.y))
  | _, _, _ => none

/-- The `asymmetry_score` field: requires both shoulders. -/
noncomputable def asymmetryField (left_shoulder right_shoulder : Option Keypoint) : Option ℝ :=
  match left_shoulder, right_shoulder with
  | some ls, some rs => some ((|ls.y - rs.y| * 100 : ℚ) : ℝ)
  | _, _ => none

/-- The `reach_distance_ratio` field: requires both shoulders and the left
wrist, and additionally a strictly positive shoulder width (the division
guard of the source). -/
noncomputable def reachField (left_shoulder right_shoulder left_wrist : Option Keypoint) :
    Option ℝ :=
  match left_shoulder, right_shoulder, left_wrist with
  | some ls, some rs, some lw =>
    let shoulder_width : ℚ := |ls.x - rs.x|
    let reach_distance : ℚ := |lw.x - ls.x|
    if 0 < shoulder_width then some ((reach_distance / shoulder_width : ℚ) : ℝ) else none
  | _, _, _ => none

/-- Names of the eight feature fields, in the dictionary's insertion order. -/
def feature_names : List String :=
  ["neck_flexion", "trunk_flexion", "left_shoulder_abduction", "right_shoulder_abduction",
   "left_elbow_flexion", "right_elbow_flexion", "asymmetry_score", "reach_distance_ratio"]

/-- Embedding of `PosePipeline.calculate_ergonomic_features`: the source initializes a
dictionary with all eight feature keys mapped to `None` and then conditionally
assigns each existing key, so the result is always the eight-key mapping in
insertion order, each value present or `none`. -/
noncomputable def calculate_ergonomic_features (keypoints : List Keypoint) :
    List (String × Option ℝ) :=
  let nose := get_keypoint_by_name keypoints "nose"
  let left_shoulder := get_keypoint_by_name keypoints "left_shoulder"
  let right_shoulder := get_keypoint_by_name keypoints "right_shoulder"
  let left_elbow := get_keypoint_by_name keypoints "left_elbow"
  let right_elbow := get_keypoint_by_name keypoints "right_elbow"
  let left_wrist := get_keypoint_by_name keypoints "left_wrist"
  let right_wrist := get_keypoint_by_name keypoints "right_wrist"
  let left_hip := get_keypoint_by_name keypoints "left_hip"
  let right_hip := get_keypoint_by_name keypoints "right_hip"
  [("neck_flexion", neckField nose left_shoulder right_shoulder),
   ("trunk_flexion", trunkField left_shoulder left_hip right_shoulder right_hip),
   ("left_shoulder_abduction", shoulderAbductionField left_shoulder left_elbow left_hip),
   ("right_shoulder_abduction", shoulderAbductionField right_shoulder right_elbow right_hip),
   ("left_elbow_flexion", elbowFlexionField left_shoulder left_elbow left_wrist),
   ("right_elbow_flexion", elbowFlexionField right_shoulder right_elbow right_wrist),
   ("asymmetry_score", asymmetryField left_shoulder right_shoulder),
   ("reach_distance_ratio", reachField left_shoulder right_shoulder left_wrist)]

/-- Result dictionary of `PosePipeline.process_image`. -/
structure ProcessResult where
  success : Bool
  error : Option String
  keypoints : List Keypoint
  ergonomic_features : List (String × Option ℝ)
  num_keypoints_detected : ℕ

/-- Embedding of `PosePipeline.process_image`.  Image preprocessing and model inference are
external collaborators (file system, OpenCV, ONNX session) modelled as a
fallible stage `run_stages`; any exception it raises is caught and converted
to the structured failure result, exactly as the source's `try`/`except`. -/
noncomputable def process_image (confidence_threshold : ℚ) (keypoint_names : List String)
    (run_stages : String → Except String RawTensor) (image_path : String) : ProcessResult :=
  match run_stages image_path with
  | Except.error e => ⟨false, some e, [], [], 0⟩
  | Except.ok model_output =>
    let keypoints := extract_keypoints confidence_threshold keypoint_names model_output
    let ergonomic_features := calculate_ergonomic_features keypoints
    ⟨true, none, keypoints, ergonomic_features, keypoints.length⟩

/-- Embedding of `PosePipeline.process_batch`: each image processed independently. -/
noncomputable def process_batch (confidence_threshold : ℚ) (keypoint_names : List String)
    (run_stages : String → Except String RawTensor) (image_paths : List String) :
    List ProcessResult :=
  image_paths.map (process_image confidence_threshold keypoint_names run_stages)

/-- Feature mapping with all eight fields present but explicitly `None`, the
shape the extractor produces when no keypoint is detected. -/
def allNoneFeatures : List (String × Option ℚ) := feature_names.map fun n => (n, none)

/-- Written from the spec's words (section 4.3): REBA arm ordinal, computed
from the average of both side angles when both are observed, from whichever
single side is observed otherwise, and 0 when neither is observed. -/
def arm_ordinal_spec (l r : Option ℚ) (th : Thresholds ℚ) : ℕ :=
  match l, r with
  | some a, some b => score_angle (some ((a + b) / 2)) th
  | some a, none => score_angle (some a) th
  | none, some b => score_angle (some b) th
  | none, none => 0

/-- Written from the spec's words (section 4.3): the REBA weighted sum
`Σ (ordinal_i × weight_i)` over the four joint groups, with the default
thresholds and weights. -/
def reba_weighted_spec (fs : List (String × Option ℚ)) : ℚ :=
  ([((score_angle (dget fs "neck_flexion") ⟨20, 45, 60⟩ : ℕ) : ℚ) * 0.20,
    ((score_angle (dget fs "trunk_flexion") ⟨20, 45, 60⟩ : ℕ) : ℚ) * 0.25,
    ((arm_ordinal_spec (dget fs "left_shoulder_abduction")
      (dget fs "right_shoulder_abduction") ⟨45, 90, 135⟩ : ℕ) : ℚ) * 0.20,
    ((arm_ordinal_spec (dget fs "left_elbow_flexion")
      (dget fs "right_elbow_flexion") ⟨60, 100, 140⟩ : ℕ) : ℚ) * 0.15]).sum

/-- REBA final exactly as the claim words it: `round(weighted_sum × 25)`
clamped to `[0, 100]`. -/
def reba_score_claimed (fs : List (String × Option ℚ)) : ℤ :=
  max 0 (min 100 (round (reba_weighted_spec fs * 25)))

/-- Written from the spec's words (section 4.3): RULA group A, the sum of the
left-side shoulder-abduction and elbow-flexion ordinals. -/
def rula_group_a_spec (fs : List (String × Option ℚ)) : ℕ :=
  score_angle (dget fs "left_shoulder_abduction") ⟨45, 90, 135⟩ +
    score_angle (dget fs "left_elbow_flexion") ⟨60, 100, 140⟩

/-- Written from the spec's words (section 4.3): RULA group B, the sum of the
neck and trunk ordinals. -/
def rula_group_b_spec (fs : List (String × Option ℚ)) : ℕ :=
  score_angle (dget fs "neck_flexion") ⟨20, 45, 60⟩ +
    score_angle (dget fs "trunk_flexion") ⟨20, 45, 60⟩

/-- RULA final exactly as the claim words it: `round((group_A + group_B) ×
12.5)` clamped to `[0, 100]`. -/
def rula_score_claimed (fs : List (String × Option ℚ)) : ℤ :=
  max 0 (min 100 (round (((rula_group_a_spec fs + rula_group_b_spec fs : ℕ) : ℚ) * 12.5)))

/-- Composite exactly as the claim words it: `round(avg(reba, rula))` over the
two final scores. -/
def composite_round_claimed (fs : List (String × Option ℚ)) : ℤ :=
  round ((((calculate_reba_score defaultConfig fs).score +
    (calculate_rula_score defaultConfig fs).score : ℤ) : ℚ) / 2)

/-- Concrete input refuting the REBA rounding claim: a single observed right
elbow angle of 50 degrees (ordinal 1, weight 0.15). -/
def rebaCexFeatures : List (String × Option ℚ) := [("right_elbow_flexion", some 50)]

/-- Concrete input refuting the RULA rounding claim: left shoulder 40 degrees
(ordinal 1) and left elbow 70 degrees (ordinal 2), so group A + group B = 3. -/
def rulaCexFeatures : List (String × Option ℚ) :=
  [("left_shoulder_abduction", some 40), ("left_elbow_flexion", some 70)]

/-- Concrete input refuting the composite rounding claim: a single neck angle
of 30 degrees gives REBA 10 and RULA 25, whose average is 17.5. -/
def compositeCexFeatures : List (String × Option ℚ) := [("neck_flexion", some 30)]

/-- Scenario keypoint set: nose and both shoulders detected (spec scenario 1). -/
def kpsScenario : List Keypoint :=
  [⟨0, "nose", 1, 2, 1⟩, ⟨1, "left_shoulder", 0, 3, 1⟩, ⟨2, "right_shoulder", 2, 3, 1⟩]

/-- The same scenario with an additional, unrelated left-hip keypoint. -/
def kpsScenarioHip : List Keypoint :=
  [⟨0, "nose", 1, 2, 1⟩, ⟨1, "left_shoulder", 0, 3, 1⟩, ⟨2, "right_shoulder", 2, 3, 1⟩,
   ⟨3, "left_hip", 0, 9, 1⟩]

/-- Keypoint set with coincident shoulder x-coordinates (zero shoulder width)
and a detected left wrist. -/
def kpsZeroWidth : List Keypoint :=
  [⟨0, "left_shoulder", 2, 1, 1⟩, ⟨1, "right_shoulder", 2, 1, 1⟩, ⟨2, "left_wrist", 5, 1, 1⟩]

/-- The decoding loop agrees with filtering the index-annotated rows. -/
theorem decodeFrom_eq_enumFrom (t : ℚ) (names : List String) (rows : List (ℚ × ℚ × ℚ))
    (n : ℕ) : decodeFrom t names n rows =
      ((List.enumFrom n rows).filter fun p => p.2.2.2 ≥ t).map
        fun p => ⟨p.1, nameFor names p.1, p.2.2.1, p.2.1, p.2.2.2⟩ := by
  induction rows generalizing n with
  | nil => simp [decodeFrom]
  | cons row rest ih =>
    obtain ⟨y, x, c⟩ := row
    by_cases h : c ≥ t
    · simp [decodeFrom, List.enumFrom, h, ih]
    · simp [decodeFrom, List.enumFrom, h, ih]

/-- C2: for every threshold, name list and raw tensor, the decoder output is
exactly the spec's description — for a rank-3 tensor, the keypoints whose
confidence is at least the threshold, with `id` the tensor index and `name`
the supplied or synthesized name; for any other rank, the empty list, with no
error raised (the function is total). -/
theorem extract_keypoints_eq_decode_spec (t : ℚ) (names : List String) (T : RawTensor) :
    extract_keypoints t names T = decode_spec t names T := by
  unfold extract_keypoints decode_spec
  by_cases h : T.ndim = 3
  · simp [h, List.enum, decodeFrom_eq_enumFrom]
  · simp [h]

/-- C6: the angle-to-ordinal function returns 0 for a missing angle, 1 below
`low`, 2 from `low` up to `medium`, 3 from `medium` up to `high`, 4 otherwise;
and for ordered thresholds it is monotone non-decreasing in the angle. -/
theorem score_angle_banding_and_monotone (th : Thresholds ℚ) :
    score_angle (none : Option ℚ) th = 0 ∧
    (∀ a : ℚ, a < th.low → score_angle (some a) th = 1) ∧
    (∀ a : ℚ, ¬ a < th.low → a < th.medium → score_angle (some a) th = 2) ∧
    (∀ a : ℚ, ¬ a < th.low → ¬ a < th.medium → a < th.high → score_angle (some a) th = 3) ∧
    (∀ a : ℚ, ¬ a < th.low → ¬ a < th.medium → ¬ a < th.high → score_angle (some a) th = 4) ∧
    (th.low ≤ th.medium → th.medium ≤ th.high →
      ∀ a b : ℚ, a ≤ b → score_angle (some a) th ≤ score_angle (some b) th) := by
  refine ⟨rfl, ?_, ?_, ?_, ?_, ?_⟩
  · intro a h
    simp [score_angle, h]
  · intro a h1 h2
    simp [score_angle, h1, h2]
  · intro a h1 h2 h3
    simp [score_angle, h1, h2, h3]
  · intro a h1 h2 h3
    simp [score_angle, h1, h2, h3]
  · intro hlm hmh a b hab
    simp only [score_angle]
    split_ifs <;> first | rfl | omega | linarith

/-- Witness for C6 at the default neck thresholds: an angle of 10 degrees is
banded 1, and monotonicity holds at the pair 30 ≤ 50. -/
theorem score_angle_banding_and_monotone_witness :
    score_angle (some (10 : ℚ)) ⟨20, 45, 60⟩ = 1 ∧
    score_angle (some (30 : ℚ)) ⟨20, 45, 60⟩ ≤ score_angle (some (50 : ℚ)) ⟨20, 45, 60⟩ :=
  ⟨(score_angle_banding_and_monotone ⟨20, 45, 60⟩).2.1 10 (by decide),
   (score_angle_banding_and_monotone ⟨20, 45, 60⟩).2.2.2.2.2 (by decide) (by decide)
     30 50 (by decide)⟩

/-- C9: an error raised by the external preprocessing/inference stages yields
the structured failure result (success false, the error string, empty
keypoints, empty feature mapping, zero detections) instead of propagating; and
batch processing maps over the inputs independently, producing one result per
input, the i-th being exactly the single-image result for the i-th input. -/
theorem process_image_error_and_batch_independent :
    (∀ (t : ℚ) (names : List String) (run_stages : String → Except String RawTensor)
      (path e : String), run_stages path = Except.error e →
        process_image t names run_stages path = ⟨false, some e, [], [], 0⟩) ∧
    (∀ (t : ℚ) (names : List String) (run_stages : String → Except String RawTensor)
      (paths : List String),
        (process_batch t names run_stages paths).length = paths.length ∧
        ∀ i : ℕ, (process_batch t names run_stages paths).get? i =
          (paths.get? i).map (process_image t names run_stages)) := by
  constructor
  · intro t names run_stages path e h
    simp [process_image, h]
  · intro t names run_stages paths
    exact ⟨by simp [process_batch], fun i => by simp [process_batch]⟩

/-- Witness for C9: a stage that always fails with "boom" yields the
structured failure result on a concrete path. -/
theorem process_image_error_witness :
    process_image 0.3 [] (fun _ => Except.error "boom") "img.png" =
      ⟨false, some "boom", [], [], 0⟩ :=
  process_image_error_and_batch_independent.1 0.3 [] (fun _ => Except.error "boom")
    "img.png" "boom" rfl

/-- Full evaluation of `compute_risk` on the eight-field all-`None` mapping:
the emptiness guard does not fire, every ordinal is 0, and the scorer
fabricates zero scores with a green traffic light and "negligible" band. -/
theorem compute_risk_allNone_eval :
    compute_risk defaultConfig allNoneFeatures =
      ⟨some 0, some 0, none, some 0, some 0, some "green", some "negligible",
       some (⟨0, 0, 0, 0, 0, 0⟩, ⟨0, 0, 0, 0⟩), none⟩ := by
  have hne : allNoneFeatures ≠ [] := by simp [allNoneFeatures, feature_names]
  rw [compute_risk, if_neg hne]
  norm_num [riskSuccess, allNoneFeatures, feature_names, defaultConfig,
    calculate_reba_score, calculate_rula_score, dget, lookupD, score_angle, pairAverage,
    pyInt, get_traffic_light, get_risk_level, calculate_confidence, round2, roundHalfEven,
    Int.fract]

/-- C1 counterexample: on the `ErgonomicFeatures` input in which every one of
the eight feature fields is present but unknown (`None`), `compute_risk` does
NOT return null score fields — it returns zero scores, a green traffic light
and the "negligible" risk level. -/
theorem compute_risk_allNone_not_null :
    (compute_risk defaultConfig allNoneFeatures).rula ≠ none ∧
    (compute_risk defaultConfig allNoneFeatures).rula = some 0 ∧
    (compute_risk defaultConfig allNoneFeatures).reba = some 0 ∧
    (compute_risk defaultConfig allNoneFeatures).composite = some 0 ∧
    (compute_risk defaultConfig allNoneFeatures).traffic_light = some "green" ∧
    (compute_risk defaultConfig allNoneFeatures).risk_level = some "negligible" := by
  rw [compute_risk_allNone_eval]
  exact ⟨by simp, rfl, rfl, rfl, rfl, rfl⟩

/-- C1 amended: only for the EMPTY feature mapping (no keys at all) does
`compute_risk` return null for all score fields (rula, reba, composite,
traffic light, risk level); a mapping carrying all eight fields explicitly
unknown is instead scored, yielding fabricated zero scores with the green
light and "negligible" band. -/
theorem compute_risk_empty_null :
    (∀ cfg : ScorerConfig ℚ, compute_risk cfg [] = nullAssessment) ∧
    (compute_risk defaultConfig allNoneFeatures).rula = some 0 ∧
    (compute_risk defaultConfig allNoneFeatures).reba = some 0 ∧
    (compute_risk defaultConfig allNoneFeatures).composite = some 0 ∧
    (compute_risk defaultConfig allNoneFeatures).traffic_light = some "green" ∧
    (compute_risk defaultConfig allNoneFeatures).risk_level = some "negligible" := by
  refine ⟨fun cfg => by simp [compute_risk], ?_, ?_, ?_, ?_, ?_⟩ <;>
    rw [compute_risk_allNone_eval]

/-- Scoring the inline side-average of the source agrees with the spec's arm
ordinal description. -/
theorem score_angle_pairAverage (l r : Option ℚ) (th : Thresholds ℚ) :
    score_angle (pairAverage l r) th = arm_ordinal_spec l r th := by
  cases l <;> cases r <;> rfl

/-- Default-configuration threshold lookup for the neck. -/
theorem lookupD_th_neck (d : Thresholds ℚ) : lookupD defaultConfig.thresholds "neck_flexion" d =
    (⟨20, 45, 60⟩ : Thresholds ℚ) := rfl

/-- Default-configuration threshold lookup for the trunk. -/
theorem lookupD_th_trunk (d : Thresholds ℚ) : lookupD defaultConfig.thresholds "trunk_flexion" d =
    (⟨20, 45, 60⟩ : Thresholds ℚ) := rfl

/-- Default-configuration threshold lookup for shoulder abduction. -/
theorem lookupD_th_shoulder (d : Thresholds ℚ) :
    lookupD defaultConfig.thresholds "shoulder_abduction" d =
    (⟨45, 90, 135⟩ : Thresholds ℚ) := rfl

/-- Default-configuration threshold lookup for elbow flexion (absent from the
table, so the inline fallback applies). -/
theorem lookupD_th_elbow (d : Thresholds ℚ) : lookupD defaultConfig.thresholds "elbow_flexion" d =
    d := rfl

/-- Default neck weight. -/
theorem lookupD_w_neck (d : ℚ) : lookupD defaultConfig.weights "neck" d = (0.20 : ℚ) := rfl

/-- Default trunk weight. -/
theorem lookupD_w_trunk (d : ℚ) : lookupD defaultConfig.weights "trunk" d = (0.25 : ℚ) := rfl

/-- Default upper-arm weight. -/
theorem lookupD_w_upper (d : ℚ) : lookupD defaultConfig.weights "upper_arm" d = (0.20 : ℚ) := rfl

/-- Default lower-arm weight. -/
theorem lookupD_w_lower (d : ℚ) : lookupD defaultConfig.weights "lower_arm" d = (0.15 : ℚ) := rfl

/-- The REBA final of the source equals the truncated weighted sum capped at
100 (the source's `min(int(w*25), 100)`), with the weighted sum in the spec's
Σ form. -/
theorem calculate_reba_score_default_eq (fs : List (String × Option ℚ)) :
    (calculate_reba_score defaultConfig fs).score =
      min (pyInt (reba_weighted_spec fs * 25)) 100 := by
  simp only [calculate_reba_score, reba_weighted_spec, score_angle_pairAverage,
    List.sum_cons, List.sum_nil, add_zero, lookupD_th_neck, lookupD_th_trunk,
    lookupD_th_shoulder, lookupD_th_elbow, lookupD_w_neck, lookupD_w_trunk,
    lookupD_w_upper, lookupD_w_lower]
  congr 2
  ring

/-- The REBA weighted sum is non-negative under the default weights. -/
theorem reba_weighted_spec_nonneg (fs : List (String × Option ℚ)) :
    0 ≤ reba_weighted_spec fs := by
  simp only [reba_weighted_spec, List.sum_cons, List.sum_nil, add_zero]
  positivity

/-- Truncation of a non-negative value is non-negative. -/
theorem pyInt_nonneg {x : ℚ} (h : 0 ≤ x) : 0 ≤ pyInt x := by
  simp only [pyInt, if_pos h]
  exact Int.floor_nonneg.mpr h

/-- For a non-negative score, capping at 100 equals clamping to [0, 100]. -/
theorem min_clamp_of_nonneg {n : ℤ} (h : 0 ≤ n) : min n 100 = max 0 (min 100 n) := by
  rcases le_total n 100 with h1 | h1 <;> simp [min_def, max_def] <;> omega

/-- C3 counterexample: on a feature mapping holding only a right elbow angle
of 50 degrees, the source computes REBA `int(0.15 × 25) = int(3.75) = 3`,
while the claimed `round(weighted_sum × 25)` clamped to [0, 100] gives 4. -/
theorem reba_trunc_ne_round :
    (calculate_reba_score defaultConfig rebaCexFeatures).score = 3 ∧
    reba_score_claimed rebaCexFeatures = 4 ∧
    (calculate_reba_score defaultConfig rebaCexFeatures).score ≠
      reba_score_claimed rebaCexFeatures := by
  have e1 : dget rebaCexFeatures "neck_flexion" = none := rfl
  have e2 : dget rebaCexFeatures "trunk_flexion" = none := rfl
  have e3 : dget rebaCexFeatures "left_shoulder_abduction" = none := rfl
  have e4 : dget rebaCexFeatures "right_shoulder_abduction" = none := rfl
  have e5 : dget rebaCexFeatures "left_elbow_flexion" = none := rfl
  have e6 : dget rebaCexFeatures "right_elbow_flexion" = some 50 := rfl
  refine ⟨?_, ?_, ?_⟩ <;>
    norm_num [calculate_reba_score, reba_score_claimed, reba_weighted_spec,
      e1, e2, e3, e4, e5, e6, arm_ordinal_spec, lookupD_th_neck, lookupD_th_trunk,
      lookupD_th_shoulder, lookupD_th_elbow, lookupD_w_neck, lookupD_w_trunk,
      lookupD_w_upper, lookupD_w_lower, score_angle, pairAverage, pyInt, round_eq]

/-- C3 amended: for every `ErgonomicFeatures` input, the REBA score equals the
TRUNCATED (not rounded) weighted sum times 25, clamped to [0, 100]:
`int(weighted_sum × 25)` with `weighted_sum = Σ(ordinal_i × weight_i)` over
neck, trunk, upper arm and lower arm, the arm ordinals averaging both sides
when both are observed, using the single observed side otherwise, and 0 when
neither is observed. -/
theorem reba_score_truncated_clamped (fs : List (String × Option ℚ)) :
    (calculate_reba_score defaultConfig fs).score =
      max 0 (min 100 (pyInt (reba_weighted_spec fs * 25))) := by
  rw [calculate_reba_score_default_eq]
  exact min_clamp_of_nonneg
    (pyInt_nonneg (mul_nonneg (reba_weighted_spec_nonneg fs) (by norm_num)))

/-- The RULA final of the source equals the truncated group sum times 12.5
capped at 100, with the groups in the spec's form. -/
theorem calculate_rula_score_default_eq (fs : List (String × Option ℚ)) :
    (calculate_rula_score defaultConfig fs).score =
      min (pyInt (((rula_group_a_spec fs + rula_group_b_spec fs : ℕ) : ℚ) * 12.5)) 100 := by
  simp only [calculate_rula_score, rula_group_a_spec, rula_group_b_spec, lookupD_th_neck,
    lookupD_th_trunk, lookupD_th_shoulder, lookupD_th_elbow]

/-- C4 counterexample: left shoulder 40 degrees (ordinal 1) and left elbow 70
degrees (ordinal 2) give group sum 3; the source computes `int(37.5) = 37`,
while the claimed `round((group_A + group_B) × 12.5)` clamped gives 38. -/
theorem rula_trunc_ne_round :
    (calculate_rula_score defaultConfig rulaCexFeatures).score = 37 ∧
    rula_score_claimed rulaCexFeatures = 38 ∧
    (calculate_rula_score defaultConfig rulaCexFeatures).score ≠
      rula_score_claimed rulaCexFeatures := by
  have e1 : dget rulaCexFeatures "neck_flexion" = none := rfl
  have e2 : dget rulaCexFeatures "trunk_flexion" = none := rfl
  have e3 : dget rulaCexFeatures "left_shoulder_abduction" = some 40 := rfl
  have e4 : dget rulaCexFeatures "left_elbow_flexion" = some 70 := rfl
  refine ⟨?_, ?_, ?_⟩ <;>
    norm_num [calculate_rula_score, rula_score_claimed, rula_group_a_spec, rula_group_b_spec,
      e1, e2, e3, e4, lookupD_th_neck, lookupD_th_trunk, lookupD_th_shoulder, lookupD_th_elbow,
      score_angle, pyInt, round_eq]

/-- C4 amended: for every `ErgonomicFeatures` input, the RULA score equals the
TRUNCATED (not rounded) `(group_A + group_B) × 12.5` clamped to [0, 100],
with group A the sum of the left shoulder-abduction and left elbow-flexion
ordinals and group B the sum of the neck and trunk ordinals; and group A
depends only on the left-side angles — right-side angles never affect it. -/
theorem rula_score_truncated_clamped :
    (∀ fs : List (String × Option ℚ), (calculate_rula_score defaultConfig fs).score =
      max 0 (min 100 (pyInt (((rula_group_a_spec fs + rula_group_b_spec fs : ℕ) : ℚ) * 12.5)))) ∧
    (∀ fs fs' : List (String × Option ℚ),
      dget fs "left_shoulder_abduction" = dget fs' "left_shoulder_abduction" →
      dget fs "left_elbow_flexion" = dget fs' "left_elbow_flexion" →
      (calculate_rula_score defaultConfig fs).group_a_score =
        (calculate_rula_score defaultConfig fs').group_a_score) := by
  constructor
  · intro fs
    rw [calculate_rula_score_default_eq]
    exact min_clamp_of_nonneg (pyInt_nonneg (mul_nonneg (by positivity) (by norm_num)))
  · intro fs fs' h1 h2
    simp only [calculate_rula_score, h1, h2]

/-- Witness for C4: adding a right-elbow entry of 150 degrees to a mapping
leaves RULA group A unchanged. -/
theorem rula_score_truncated_clamped_witness :
    (calculate_rula_score defaultConfig [("left_shoulder_abduction", some 40)]).group_a_score =
      (calculate_rula_score defaultConfig
        [("left_shoulder_abduction", some 40), ("right_elbow_flexion", some 150)]).group_a_score :=
  rula_score_truncated_clamped.2 [("left_shoulder_abduction", some 40)]
    [("left_shoulder_abduction", some 40), ("right_elbow_flexion", some 150)] rfl rfl

/-- The REBA final is never negative under the default configuration. -/
theorem reba_score_nonneg (fs : List (String × Option ℚ)) :
    0 ≤ (calculate_reba_score defaultConfig fs).score := by
  rw [calculate_reba_score_default_eq]
  exact le_min
    (pyInt_nonneg (mul_nonneg (reba_weighted_spec_nonneg fs) (by norm_num))) (by norm_num)

/-- The RULA final is never negative under the default configuration. -/
theorem rula_score_nonneg (fs : List (String × Option ℚ)) :
    0 ≤ (calculate_rula_score defaultConfig fs).score := by
  rw [calculate_rula_score_default_eq]
  exact le_min (pyInt_nonneg (mul_nonneg (by positivity) (by norm_num))) (by norm_num)

/-- Truncating the rational half of a non-negative integer is integer (floor)
division by two. -/
theorem pyInt_intCast_div_two {n : ℤ} (h : 0 ≤ n) : pyInt ((n : ℚ) / 2) = n / 2 := by
  have h2 : (0 : ℚ) ≤ (n : ℚ) / 2 := div_nonneg (by exact_mod_cast h) (by norm_num)
  rw [pyInt, if_pos h2, show ((2 : ℚ)) = ((2 : ℕ) : ℚ) by norm_num,
    Rat.floor_intCast_div_natCast]
  norm_num

/-- C5 counterexample: on a feature mapping holding only a neck angle of 30
degrees, REBA is 10 and RULA is 25; the source computes the composite as
`int(35 / 2) = 17`, while the claimed `round(avg(reba, rula))` gives 18. -/
theorem composite_trunc_ne_round :
    (compute_risk defaultConfig compositeCexFeatures).composite = some 17 ∧
    composite_round_claimed compositeCexFeatures = 18 ∧
    (compute_risk defaultConfig compositeCexFeatures).composite ≠
      some (composite_round_claimed compositeCexFeatures) := by
  have e1 : dget compositeCexFeatures "neck_flexion" = some 30 := rfl
  have e2 : dget compositeCexFeatures "trunk_flexion" = none := rfl
  have e3 : dget compositeCexFeatures "left_shoulder_abduction" = none := rfl
  have e4 : dget compositeCexFeatures "right_shoulder_abduction" = none := rfl
  have e5 : dget compositeCexFeatures "left_elbow_flexion" = none := rfl
  have e6 : dget compositeCexFeatures "right_elbow_flexion" = none := rfl
  have hne : compositeCexFeatures ≠ [] := by simp [compositeCexFeatures]
  refine ⟨?_, ?_, ?_⟩ <;>
    norm_num [compute_risk, hne, riskSuccess, composite_round_claimed, calculate_reba_score,
      calculate_rula_score, e1, e2, e3, e4, e5, e6, lookupD_th_neck, lookupD_th_trunk,
      lookupD_th_shoulder, lookupD_th_elbow, lookupD_w_neck, lookupD_w_trunk, lookupD_w_upper,
      lookupD_w_lower, score_angle, pairAverage, pyInt, round_eq]

/-- C5 amended: whenever the feature mapping is non-empty (so both finals are
present), the composite equals the INTEGER (floor) average of the REBA and
RULA finals — `int((reba + rula) / 2)`, not `round(avg(reba, rula))` — and the
composite confidence is the average of the two confidences rounded to two
decimal places. -/
theorem composite_integer_average (fs : List (String × Option ℚ)) (h : fs ≠ []) :
    (compute_risk defaultConfig fs).composite =
      some (((calculate_reba_score defaultConfig fs).score +
        (calculate_rula_score defaultConfig fs).score) / 2) ∧
    (compute_risk defaultConfig fs).confidence =
      some (round2 (((calculate_reba_score defaultConfig fs).confidence +
        (calculate_rula_score defaultConfig fs).confidence) / 2)) := by
  rw [compute_risk, if_neg h]
  constructor
  · simp only [riskSuccess]
    exact congrArg some
      (pyInt_intCast_div_two (add_nonneg (reba_score_nonneg fs) (rula_score_nonneg fs)))
  · simp only [riskSuccess]

/-- Witness for C5 on a one-field mapping (trunk 50 degrees). -/
theorem composite_integer_average_witness :
    (compute_risk defaultConfig [("trunk_flexion", some (50 : ℚ))]).composite =
      some (((calculate_reba_score defaultConfig [("trunk_flexion", some (50 : ℚ))]).score +
        (calculate_rula_score defaultConfig [("trunk_flexion", some (50 : ℚ))]).score) / 2) :=
  (composite_integer_average [("trunk_flexion", some 50)] (by decide)).1

/-- The neck field of the extractor output, as a function of the three
required lookups. -/
theorem dget_calc_neck (kps : List Keypoint) :
    dget (calculate_ergonomic_features kps) "neck_flexion" =
      neckField (get_keypoint_by_name kps "nose") (get_keypoint_by_name kps "left_shoulder")
        (get_keypoint_by_name kps "right_shoulder") := rfl

/-- The trunk field of the extractor output. -/
theorem dget_calc_trunk (kps : List Keypoint) :
    dget (calculate_ergonomic_features kps) "trunk_flexion" =
      trunkField (get_keypoint_by_name kps "left_shoulder") (get_keypoint_by_name kps "left_hip")
        (get_keypoint_by_name kps "right_shoulder") (get_keypoint_by_name kps "right_hip") := rfl

/-- The left shoulder-abduction field of the extractor output. -/
theorem dget_calc_lsa (kps : List Keypoint) :
    dget (calculate_ergonomic_features kps) "left_shoulder_abduction" =
      shoulderAbductionField (get_keypoint_by_name kps "left_shoulder")
        (get_keypoint_by_name kps "left_elbow") (get_keypoint_by_name kps "left_hip") := rfl

/-- The right shoulder-abduction field of the extractor output. -/
theorem dget_calc_rsa (kps : List Keypoint) :
    dget (calculate_ergonomic_features kps) "right_shoulder_abduction" =
      shoulderAbductionField (get_keypoint_by_name kps "right_shoulder")
        (get_keypoint_by_name kps "right_elbow") (get_keypoint_by_name kps "right_hip") := rfl

/-- The left elbow-flexion field of the extractor output. -/
theorem dget_calc_lef (kps : List Keypoint) :
    dget (calculate_ergonomic_features kps) "left_elbow_flexion" =
      elbowFlexionField (get_keypoint_by_name kps "left_shoulder")
        (get_keypoint_by_name kps "left_elbow") (get_keypoint_by_name kps "left_wrist") := rfl

/-- The right elbow-flexion field of the extractor output. -/
theorem dget_calc_ref (kps : List Keypoint) :
    dget (calculate_ergonomic_features kps) "right_elbow_flexion" =
      elbowFlexionField (get_keypoint_by_name kps "right_shoulder")
        (get_keypoint_by_name kps "right_elbow") (get_keypoint_by_name kps "right_wrist") := rfl

/-- The asymmetry field of the extractor output. -/
theorem dget_calc_asym (kps : List Keypoint) :
    dget (calculate_ergonomic_features kps) "asymmetry_score" =
      asymmetryField (get_keypoint_by_name kps "left_shoulder")
        (get_keypoint_by_name kps "right_shoulder") := rfl

/-- The reach-ratio field of the extractor output. -/
theorem dget_calc_reach (kps : List Keypoint) :
    dget (calculate_ergonomic_features kps) "reach_distance_ratio" =
      reachField (get_keypoint_by_name kps "left_shoulder")
        (get_keypoint_by_name kps "right_shoulder") (get_keypoint_by_name kps "left_wrist") := rfl

/-- Presence of the neck field is presence of its three keypoints. -/
theorem neckField_isSome (a b c : Option Keypoint) :
    (neckField a b c).isSome = (a.isSome && b.isSome && c.isSome) := by
  cases a <;> cases b <;> cases c <;> rfl

/-- Presence of the trunk field is presence of its four keypoints. -/
theorem trunkField_isSome (a b c d : Option Keypoint) :
    (trunkField a b c d).isSome = (a.isSome && b.isSome && c.isSome && d.isSome) := by
  cases a <;> cases b <;> cases c <;> cases d <;> rfl

/-- Presence of a shoulder-abduction field is presence of its three keypoints. -/
theorem shoulderAbductionField_isSome (a b c : Option Keypoint) :
    (shoulderAbductionField a b c).isSome = (a.isSome && b.isSome && c.isSome) := by
  cases a <;> cases b <;> cases c <;> rfl

/-- Presence of an elbow-flexion field is presence of its three keypoints. -/
theorem elbowFlexionField_isSome (a b c : Option Keypoint) :
    (elbowFlexionField a b c).isSome = (a.isSome && b.isSome && c.isSome) := by
  cases a <;> cases b <;> cases c <;> rfl

/-- Presence of the asymmetry field is presence of both shoulders. -/
theorem asymmetryField_isSome (a b : Option Keypoint) :
    (asymmetryField a b).isSome = (a.isSome && b.isSome) := by
  cases a <;> cases b <;> rfl

/-- Presence of the reach field is presence of its three keypoints together
with a positive shoulder width. -/
theorem reachField_isSome (a b c : Option Keypoint) :
    (reachField a b c).isSome = true ↔
      ∃ ls rs lw, a = some ls ∧ b = some rs ∧ c = some lw ∧ 0 < |ls.x - rs.x| := by
  cases a with
  | none => simp [reachField]
  | some ls =>
    cases b with
    | none => simp [reachField]
    | some rs =>
      cases c with
      | none => simp [reachField]
      | some lw =>
        by_cases h : 0 < |ls.x - rs.x|
        · simp only [reachField, h, if_pos, Option.isSome_some, Option.some.injEq, true_iff]
          exact ⟨ls, rs, lw, rfl, rfl, rfl, h⟩
        · simp [reachField, h]
          exact abs_nonpos_iff.mp (not_lt.mp h)

/-- C7: each ergonomic feature of the extractor output is present exactly when
all of its required keypoints (looked up by name) are present — with
`reach_distance_ratio` additionally requiring a non-zero shoulder width — and
each feature is a function of its own required lookups only, so a missing
keypoint for one feature leaves every unrelated feature unaffected. -/
theorem ergonomic_features_presence (kps : List Keypoint) :
    ((dget (calculate_ergonomic_features kps) "neck_flexion").isSome =
      ((get_keypoint_by_name kps "nose").isSome &&
        (get_keypoint_by_name kps "left_shoulder").isSome &&
        (get_keypoint_by_name kps "right_shoulder").isSome)) ∧
    ((dget (calculate_ergonomic_features kps) "trunk_flexion").isSome =
      ((get_keypoint_by_name kps "left_shoulder").isSome &&
        (get_keypoint_by_name kps "left_hip").isSome &&
        (get_keypoint_by_name kps "right_shoulder").isSome &&
        (get_keypoint_by_name kps "right_hip").isSome)) ∧
    ((dget (calculate_ergonomic_features kps) "left_shoulder_abduction").isSome =
      ((get_keypoint_by_name kps "left_shoulder").isSome &&
        (get_keypoint_by_name kps "left_elbow").isSome &&
        (get_keypoint_by_name kps "left_hip").isSome)) ∧
    ((dget (calculate_ergonomic_features kps) "right_shoulder_abduction").isSome =
      ((get_keypoint_by_name kps "right_shoulder").isSome &&
        (get_keypoint_by_name kps "right_elbow").isSome &&
        (get_keypoint_by_name kps "right_hip").isSome)) ∧
    ((dget (calculate_ergonomic_features kps) "left_elbow_flexion").isSome =
      ((get_keypoint_by_name kps "left_shoulder").isSome &&
        (get_keypoint_by_name kps "left_elbow").isSome &&
        (get_keypoint_by_name kps "left_wrist").isSome)) ∧
    ((dget (calculate_ergonomic_features kps) "right_elbow_flexion").isSome =
      ((get_keypoint_by_name kps "right_shoulder").isSome &&
        (get_keypoint_by_name kps "right_elbow").isSome &&
        (get_keypoint_by_name kps "right_wrist").isSome)) ∧
    ((dget (calculate_ergonomic_features kps) "asymmetry_score").isSome =
      ((get_keypoint_by_name kps "left_shoulder").isSome &&
        (get_keypoint_by_name kps "right_shoulder").isSome)) ∧
    ((dget (calculate_ergonomic_features kps) "reach_distance_ratio").isSome = true ↔
      ∃ ls rs lw, get_keypoint_by_name kps "left_shoulder" = some ls ∧
        get_keypoint_by_name kps "right_shoulder" = some rs ∧
        get_keypoint_by_name kps "left_wrist" = some lw ∧ 0 < |ls.x - rs.x|) ∧
    (∀ k1 k2 : List Keypoint, get_keypoint_by_name k1 "nose" = get_keypoint_by_name k2 "nose" →
      get_keypoint_by_name k1 "left_shoulder" = get_keypoint_by_name k2 "left_shoulder" →
      get_keypoint_by_name k1 "right_shoulder" = get_keypoint_by_name k2 "right_shoulder" →
      dget (calculate_ergonomic_features k1) "neck_flexion" =
        dget (calculate_ergonomic_features k2) "neck_flexion") ∧
    (∀ k1 k2 : List Keypoint,
      get_keypoint_by_name k1 "left_shoulder" = get_keypoint_by_name k2 "left_shoulder" →
      get_keypoint_by_name k1 "left_hip" = get_keypoint_by_name k2 "left_hip" →
      get_keypoint_by_name k1 "right_shoulder" = get_keypoint_by_name k2 "right_shoulder" →
      get_keypoint_by_name k1 "right_hip" = get_keypoint_by_name k2 "right_hip" →
      dget (calculate_ergonomic_features k1) "trunk_flexion" =
        dget (calculate_ergonomic_features k2) "trunk_flexion") ∧
    (∀ k1 k2 : List Keypoint,
      get_keypoint_by_name k1 "left_shoulder" = get_keypoint_by_name k2 "left_shoulder" →
      get_keypoint_by_name k1 "left_elbow" = get_keypoint_by_name k2 "left_elbow" →
      get_keypoint_by_name k1 "left_hip" = get_keypoint_by_name k2 "left_hip" →
      dget (calculate_ergonomic_features k1) "left_shoulder_abduction" =
        dget (calculate_ergonomic_features k2) "left_shoulder_abduction") ∧
    (∀ k1 k2 : List Keypoint,
      get_keypoint_by_name k1 "right_shoulder" = get_keypoint_by_name k2 "right_shoulder" →
      get_keypoint_by_name k1 "right_elbow" = get_keypoint_by_name k2 "right_elbow" →
      get_keypoint_by_name k1 "right_hip" = get_keypoint_by_name k2 "right_hip" →
      dget (calculate_ergonomic_features k1) "right_shoulder_abduction" =
        dget (calculate_ergonomic_features k2) "right_shoulder_abduction") ∧
    (∀ k1 k2 : List Keypoint,
      get_keypoint_by_name k1 "left_shoulder" = get_keypoint_by_name k2 "left_shoulder" →
      get_keypoint_by_name k1 "left_elbow" = get_keypoint_by_name k2 "left_elbow" →
      get_keypoint_by_name k1 "left_wrist" = get_keypoint_by_name k2 "left_wrist" →
      dget (calculate_ergonomic_features k1) "left_elbow_flexion" =
        dget (calculate_ergonomic_features k2) "left_elbow_flexion") ∧
    (∀ k1 k2 : List Keypoint,
      get_keypoint_by_name k1 "right_shoulder" = get_keypoint_by_name k2 "right_shoulder" →
      get_keypoint_by_name k1 "right_elbow" = get_keypoint_by_name k2 "right_elbow" →
      get_keypoint_by_name k1 "right_wrist" = get_keypoint_by_name k2 "right_wrist" →
      dget (calculate_ergonomic_features k1) "right_elbow_flexion" =
        dget (calculate_ergonomic_features k2) "right_elbow_flexion") ∧
    (∀ k1 k2 : List Keypoint,
      get_keypoint_by_name k1 "left_shoulder" = get_keypoint_by_name k2 "left_shoulder" →
      get_keypoint_by_name k1 "right_shoulder" = get_keypoint_by_name k2 "right_shoulder" →
      dget (calculate_ergonomic_features k1) "asymmetry_score" =
        dget (calculate_ergonomic_features k2) "asymmetry_score") ∧
    (∀ k1 k2 : List Keypoint,
      get_keypoint_by_name k1 "left_shoulder" = get_keypoint_by_name k2 "left_shoulder" →
      get_keypoint_by_name k1 "right_shoulder" = get_keypoint_by_name k2 "right_shoulder" →
      get_keypoint_by_name k1 "left_wrist" = get_keypoint_by_name k2 "left_wrist" →
      dget (calculate_ergonomic_features k1) "reach_distance_ratio" =
        dget (calculate_ergonomic_features k2) "reach_distance_ratio") := by
  refine ⟨?_, ?_, ?_, ?_, ?_, ?_, ?_, ?_, ?_, ?_, ?_, ?_, ?_, ?_, ?_, ?_⟩
  · rw [dget_calc_neck]; exact neckField_isSome _ _ _
  · rw [dget_calc_trunk]; exact trunkField_isSome _ _ _ _
  · rw [dget_calc_lsa]; exact shoulderAbductionField_isSome _ _ _
  · rw [dget_calc_rsa]; exact shoulderAbductionField_isSome _ _ _
  · rw [dget_calc_lef]; exact elbowFlexionField_isSome _ _ _
  · rw [dget_calc_ref]; exact elbowFlexionField_isSome _ _ _
  · rw [dget_calc_asym]; exact asymmetryField_isSome _ _
  · rw [dget_calc_reach]; exact reachField_isSome _ _ _
  · intro k1 k2 h1 h2 h3; rw [dget_calc_neck, dget_calc_neck, h1, h2, h3]
  · intro k1 k2 h1 h2 h3 h4; rw [dget_calc_trunk, dget_calc_trunk, h1, h2, h3, h4]
  · intro k1 k2 h1 h2 h3; rw [dget_calc_lsa, dget_calc_lsa, h1, h2, h3]
  · intro k1 k2 h1 h2 h3; rw [dget_calc_rsa, dget_calc_rsa, h1, h2, h3]
  · intro k1 k2 h1 h2 h3; rw [dget_calc_lef, dget_calc_lef, h1, h2, h3]
  · intro k1 k2 h1 h2 h3; rw [dget_calc_ref, dget_calc_ref, h1, h2, h3]
  · intro k1 k2 h1 h2; rw [dget_calc_asym, dget_calc_asym, h1, h2]
  · intro k1 k2 h1 h2 h3; rw [dget_calc_reach, dget_calc_reach, h1, h2, h3]

/-- Witness for C7: with nose and both shoulders detected, the neck feature is
present, and adding an unrelated left-hip keypoint leaves it unchanged. -/
theorem ergonomic_features_presence_witness :
    dget (calculate_ergonomic_features kpsScenario) "neck_flexion" =
      dget (calculate_ergonomic_features kpsScenarioHip) "neck_flexion" :=
  (ergonomic_features_presence []).2.2.2.2.2.2.2.2.1 kpsScenario kpsScenarioHip rfl rfl rfl

/-- C8: the extractor is total — on any keypoint list it returns the full
eight-field structure, never an exception — and its numeric kernels are
guarded: the vertex-angle cosine denominator (norm product plus `1e-6`) is
strictly positive, the clipped cosine lies in `[-1, 1]` before `arccos`, and
the reach ratio divides only behind the positive-shoulder-width check (a zero
width yields a structurally absent field). -/
theorem extractor_total_and_guarded (v1x v1y v2x v2y v : ℝ) (kps : List Keypoint) :
    0 < angleDenom v1x v1y v2x v2y ∧
    (-1 ≤ np_clip v (-1) 1 ∧ np_clip v (-1) 1 ≤ 1) ∧
    (calculate_ergonomic_features kps).length = 8 ∧
    (∀ ls rs lw : Keypoint, get_keypoint_by_name kps "left_shoulder" = some ls →
      get_keypoint_by_name kps "right_shoulder" = some rs →
      get_keypoint_by_name kps "left_wrist" = some lw →
      ¬ 0 < |ls.x - rs.x| →
      dget (calculate_ergonomic_features kps) "reach_distance_ratio" = none) := by
  refine ⟨?_, ⟨?_, ?_⟩, rfl, ?_⟩
  · have h1 : (0 : ℝ) ≤ Real.sqrt (v1x ^ 2 + v1y ^ 2) * Real.sqrt (v2x ^ 2 + v2y ^ 2) :=
      mul_nonneg (Real.sqrt_nonneg _) (Real.sqrt_nonneg _)
    have h2 : (0 : ℝ) < 1e-6 := by norm_num
    unfold angleDenom
    linarith
  · exact le_min (le_max_right v (-1)) (by norm_num)
  · exact min_le_right _ 1
  · intro ls rs lw h1 h2 h3 h4
    rw [dget_calc_reach, h1, h2, h3]
    simp only [reachField]
    rw [if_neg h4]

/-- Witness for C8: with coincident shoulders (zero width) and a detected left
wrist, the reach ratio is structurally absent rather than a division error. -/
theorem extractor_total_and_guarded_witness :
    dget (calculate_ergonomic_features kpsZeroWidth) "reach_distance_ratio" = none :=
  (extractor_total_and_guarded 0 0 0 0 0 kpsZeroWidth).2.2.2
    ⟨0, "left_shoulder", 2, 1, 1⟩ ⟨1, "right_shoulder", 2, 1, 1⟩ ⟨2, "left_wrist", 5, 1, 1⟩
    rfl rfl rfl (by simp)

/-- C10: for every keypoint list, the extractor output is the record with
exactly the eight named feature keys in order, each present with a value or
`None`; in particular it is never the empty mapping, so `compute_risk` on
extractor output always takes its scoring branch, never the empty-features
(all-null) branch. -/
theorem extractor_output_always_eight_fields (kps : List Keypoint) (cfg : ScorerConfig ℝ) :
    (calculate_ergonomic_features kps).map Prod.fst = feature_names ∧
    calculate_ergonomic_features kps ≠ [] ∧
    compute_risk cfg (calculate_ergonomic_features kps) =
      riskSuccess cfg (calculate_ergonomic_features kps) := by
  refine ⟨rfl, by simp [calculate_ergonomic_features], ?_⟩
  rw [compute_risk, if_neg (by simp [calculate_ergonomic_features])]
